import Mathlib

/-!
Shallow embedding of the `NetworkController` from this repository
(`src/unnamed/part_001`, with its test suite in `src/unnamed/part_000`).

The controller manages the active Ethereum network connection: the
provider configuration (`providerConfig`), a registry of custom network
configurations, a connectivity state (`networkId`, `networkStatus`,
`networkDetails.EIPS`), and the asynchronous `lookupNetwork` status probe
guarded against network switches by a stale flag.

Machine integers are modelled as `Nat`/`Int`; JavaScript strings as
`String`; records (`Record<string, T>`) as association lists in object
insertion order; `undefined`/optional fields as `Option`.
-/

namespace NetCtrl

/-- Network types handled by `#configureProvider` (`NetworkType` of
`@metamask/controller-utils`): the three Infura networks plus `rpc`. -/
inductive NetworkType
  | mainnet
  | goerli
  | sepolia
  | rpc
deriving DecidableEq, Repr

/-- Connectivity statuses (`NetworkStatus` from `./constants`, values as
used throughout the test suite). -/
inductive NetworkStatus
  | unknown
  | available
  | unavailable
  | blocked
deriving DecidableEq, Repr

/-- `isInfuraProviderType`: whether the type is one of the keys of
`InfuraNetworkType` (mainnet, goerli, sepolia). -/
def isInfuraProviderType : NetworkType → Bool
  | NetworkType.rpc => false
  | _ => true

/-- `rpcPrefs` object: `{ blockExplorerUrl?: string }`. -/
structure RpcPrefs where
  blockExplorerUrl : Option String
deriving DecidableEq, Repr

/-- `ProviderConfig`: the currently selected network descriptor. -/
structure ProviderConfig where
  rpcUrl : Option String
  type : NetworkType
  chainId : String
  ticker : Option String
  nickname : Option String
  rpcPrefs : Option RpcPrefs
  id : Option String
deriving DecidableEq, Repr

/-- `NetworkDetails`: `EIPS` is a finite map from EIP number to Bool,
modelled as an association list in object insertion order. -/
structure NetworkDetails where
  EIPS : List (Nat × Bool)
deriving DecidableEq, Repr

/-- JavaScript object property read: `EIPS[k]`. -/
def lookupEIP (l : List (Nat × Bool)) (k : Nat) : Option Bool :=
  (l.find? (fun p => p.1 = k)).map (fun p => p.2)

/-- JavaScript object property write `EIPS[k] = v`: overwrites in place
when the key exists, appends otherwise. -/
def setEIP (l : List (Nat × Bool)) (k : Nat) (v : Bool) : List (Nat × Bool) :=
  if l.any (fun p => p.1 = k) then
    l.map (fun p => if p.1 = k then (k, v) else p)
  else
    l ++ [(k, v)]

/-- JavaScript `delete EIPS[k]`. -/
def deleteEIP (l : List (Nat × Bool)) (k : Nat) : List (Nat × Bool) :=
  l.filter (fun p => p.1 ≠ k)

/-- `NetworkConfiguration`: a custom RPC network definition. -/
structure NetworkConfiguration where
  rpcUrl : String
  chainId : String
  ticker : String
  nickname : Option String
  rpcPrefs : Option RpcPrefs
deriving DecidableEq, Repr

/-- A registry entry: `NetworkConfiguration & { id: string }`. -/
structure StoredNetworkConfiguration where
  rpcUrl : String
  chainId : String
  ticker : String
  nickname : Option String
  rpcPrefs : Option RpcPrefs
  id : String
deriving DecidableEq, Repr

/-- The registry `Record<string, NetworkConfiguration & { id }>`,
as an association list in object insertion order. -/
abbrev Registry := List (String × StoredNetworkConfiguration)

/-- Object property lookup on the registry. -/
def regLookup (r : Registry) (k : String) : Option StoredNetworkConfiguration :=
  (List.find? (fun p => p.1 = k) r).map (fun p => p.2)

/-- Object spread `{...old, [k]: v}`: overwrite in place when the key
exists, append otherwise. -/
def regSet (r : Registry) (k : String) (v : StoredNetworkConfiguration) : Registry :=
  if List.any r (fun p => p.1 = k) then
    List.map (fun p => if p.1 = k then (k, v) else p) r
  else
    r ++ [(k, v)]

/-- `Object.values` of the registry. -/
def regValues (r : Registry) : List StoredNetworkConfiguration :=
  List.map (fun p => p.2) r

/-- `NetworkState`: the controller state. -/
structure NetworkState where
  networkId : Option String
  networkStatus : NetworkStatus
  providerConfig : ProviderConfig
  networkDetails : NetworkDetails
  networkConfigurations : Registry
deriving DecidableEq, Repr

/-- `defaultState` (source lines 253-264). -/
def defaultState : NetworkState :=
  { networkId := none
    networkStatus := NetworkStatus.unknown
    providerConfig :=
      { rpcUrl := none
        type := NetworkType.mainnet
        chainId := "0x1"
        ticker := none
        nickname := none
        rpcPrefs := none
        id := none }
    networkDetails := { EIPS := [] }
    networkConfigurations := [] }

/-- `NetworkId` is a decimal-digit string (`${number}`); this is the
`/^\d+$/u` test of `convertNetworkId`. -/
def isDecimalDigitString (s : String) : Bool :=
  s.data.length > 0 && s.data.all Char.isDigit

/-- Hex digit test for `isStrictHexString` of `@metamask/utils`
(pattern `0x` followed by one or more hex digits). -/
def isHexDigitChar (c : Char) : Bool :=
  c.isDigit || (('a' ≤ c) && (c ≤ 'f')) || (('A' ≤ c) && (c ≤ 'F'))

/-- The characters of a string after its `0x` prefix, or `none` when the
prefix is absent. -/
def hexBody : List Char → Option (List Char)
  | '0' :: 'x' :: rest => some rest
  | _ => none

/-- `isStrictHexString` of `@metamask/utils`: a `0x`-prefixed hex string
with at least one hex digit. -/
def isStrictHexString (s : String) : Bool :=
  match hexBody s.data with
  | some rest => rest.length > 0 && rest.all isHexDigitChar
  | none => false

/-- Numeric value of one hex digit. -/
def hexDigitVal (c : Char) : Nat :=
  if c.isDigit then c.toNat - '0'.toNat
  else if ('a' ≤ c) && (c ≤ 'f') then c.toNat - 'a'.toNat + 10
  else if ('A' ≤ c) && (c ≤ 'F') then c.toNat - 'A'.toNat + 10
  else 0

/-- Numeric value of a `0x`-prefixed hex string (`convertHexToDecimal` of
`@metamask/controller-utils` parses the hex string to a number; JavaScript
float precision above 2^53 is not modelled). -/
def hexToNat (s : String) : Nat :=
  match hexBody s.data with
  | some rest => rest.foldl (fun a c => a * 16 + hexDigitVal c) 0
  | none => 0

/-- A parsed JSON value, used to model RPC results and parsed error
message bodies. -/
inductive JsonValue
  | null
  | bool (b : Bool)
  | num (n : Int)
  | str (s : String)
  | arr (elems : List JsonValue)
  | obj (fields : List (String × JsonValue))

/-- `convertNetworkId` (source lines 103-112): accepts a number, a strict
`0x`-hex string, or a decimal string, and normalizes to a decimal string.
Returns `none` where the source throws
`Cannot parse as a valid network ID` (a plain `Error`, with no `code`
property). -/
def convertNetworkId : JsonValue → Option String
  | JsonValue.num n => some (toString n)
  | JsonValue.str s =>
    if isStrictHexString s then some (toString (hexToNat s))
    else if isDecimalDigitString s then some s
    else none
  | _ => none

/-- A JavaScript error value as inspected by `lookupNetwork`:
`hasCode`/`code` model the `code` property checked by `isErrorWithCode`
(source lines 123-125); `messageJson` is the result of
`JSON.parse(error.message)` when `message` is present, is a string, and
parses as JSON, and `none` otherwise (the source swallows the parse
failure). -/
structure JsError where
  hasCode : Bool
  code : Int
  messageJson : Option JsonValue

/-- `errorCodes.rpc.internal` of `eth-rpc-errors`. -/
def errorCodesRpcInternal : Int := -32603

/-- `INFURA_BLOCKED_KEY` from `./constants`; the test suite builds the
blocked response as `JSON.stringify(\x7b error: 'countryBlocked' \x7d)`. -/
def INFURA_BLOCKED_KEY : String := "countryBlocked"

/-- `isPlainObject(responseBody) && responseBody.error === INFURA_BLOCKED_KEY`
(source lines 534-537). -/
def isBlockedBody : Option JsonValue → Bool
  | some (JsonValue.obj fields) =>
    match (List.find? (fun p => p.1 = "error") fields).map (fun p => p.2) with
    | some (JsonValue.str s) => s = INFURA_BLOCKED_KEY
    | _ => false
  | _ => false

/-- Error classification of the `catch` branch of `lookupNetwork`
(source lines 519-547): the Infura blocked payload yields `blocked`, the
internal RPC error code yields `unknown`, any other error carrying a
`code` property yields `unavailable`, and an error without a `code`
property yields `unknown`. -/
def classifyLookupError (isInfura : Bool) (e : JsError) : NetworkStatus :=
  if e.hasCode then
    let responseBody : Option JsonValue := if isInfura then e.messageJson else none
    if isBlockedBody responseBody then NetworkStatus.blocked
    else if e.code = errorCodesRpcInternal then NetworkStatus.unknown
    else NetworkStatus.unavailable
  else NetworkStatus.unknown

/-- A block as returned by `eth_getBlockByNumber` (only `baseFeePerGas`
is inspected). -/
structure Block where
  baseFeePerGas : Option String
deriving DecidableEq, Repr

/-- `#determineEIP1559Compatibility`: `latestBlock?.baseFeePerGas !== undefined`;
a `null` block yields `false`. -/
def determineEIP1559Compatibility : Option Block → Bool
  | none => false
  | some b => b.baseFeePerGas.isSome

/-- The joint outcome of the two awaited requests inside `lookupNetwork`
(`net_version` and `eth_getBlockByNumber`): either both resolve (with
the raw `net_version` result and the latest block, possibly `null`), or
`Promise.all` rejects with the first error. -/
inductive FetchOutcome
  | success (netVersion : JsonValue) (latestBlock : Option Block)
  | failure (e : JsError)

/-- The values `lookupNetwork` computes before the stale check:
`updatedNetworkStatus`, `updatedNetworkId`, `updatedIsEIP1559Compatible`. -/
structure LookupResult where
  status : NetworkStatus
  networkId : Option String
  eip1559 : Option Bool
deriving DecidableEq, Repr

/-- The `try`/`catch` of `lookupNetwork` (source lines 511-548): on joint
success both values are captured and the status is `available`; a
malformed `net_version` result makes `#getNetworkId` throw a plain
`Error` (no `code` property), classified `unknown`; a request failure is
classified by `classifyLookupError`. -/
def lookupOutcome (isInfura : Bool) (f : FetchOutcome) : LookupResult :=
  match f with
  | FetchOutcome.success netVersion latestBlock =>
    match convertNetworkId netVersion with
    | some nid =>
      { status := NetworkStatus.available
        networkId := some nid
        eip1559 := some (determineEIP1559Compatibility latestBlock) }
    | none =>
      { status := NetworkStatus.unknown, networkId := none, eip1559 := none }
  | FetchOutcome.failure e =>
    { status := classifyLookupError isInfura e, networkId := none, eip1559 := none }

/-- The committing state update of `lookupNetwork` (source lines 560-568):
sets `networkId` and `networkStatus`, and sets or deletes
`networkDetails.EIPS[1559]`. -/
def commitLookup (s : NetworkState) (r : LookupResult) : NetworkState :=
  { s with
    networkId := r.networkId
    networkStatus := r.status
    networkDetails :=
      { EIPS :=
          match r.eip1559 with
          | none => deleteEIP s.networkDetails.EIPS 1559
          | some b => setEIP s.networkDetails.EIPS 1559 b } }

/-- Notifications published by the controller. -/
inductive NEvent
  | networkWillChange
  | networkDidChange
  | infuraIsBlocked
  | infuraIsUnblocked
deriving DecidableEq, Repr

/-- The notification step at the end of `lookupNetwork` (source lines
570-581): for an Infura network, `infuraIsUnblocked` when available and
`infuraIsBlocked` when blocked; for a non-Infura network, always
`infuraIsUnblocked`. -/
def lookupEvents (isInfura : Bool) (status : NetworkStatus) : List NEvent :=
  if isInfura then
    if status = NetworkStatus.available then [NEvent.infuraIsUnblocked]
    else if status = NetworkStatus.blocked then [NEvent.infuraIsBlocked]
    else []
  else [NEvent.infuraIsUnblocked]

/-- A constructed network client, identifying the resources built by
`createNetworkClient` and installed into the proxies
(`#setupInfuraProvider` / `#setupStandardProvider`). -/
inductive NetworkClient
  | infura (network : NetworkType)
  | custom (rpcUrl : String) (chainId : String)
deriving DecidableEq, Repr

/-- `#configureProvider` (source lines 356-380): the three Infura types
build an Infura client; `rpc` requires a chain id and an RPC URL
(checked in that order) and builds a custom client. -/
def configureProvider (type : NetworkType) (rpcUrl : Option String)
    (chainId : Option String) : Except String NetworkClient :=
  match type with
  | NetworkType.mainnet => Except.ok (NetworkClient.infura type)
  | NetworkType.goerli => Except.ok (NetworkClient.infura type)
  | NetworkType.sepolia => Except.ok (NetworkClient.infura type)
  | NetworkType.rpc =>
    match chainId with
    | none => Except.error "chainId must be provided for custom RPC endpoints"
    | some cid =>
      match rpcUrl with
      | none => Except.error "rpcUrl must be provided for custom RPC endpoints"
      | some url => Except.ok (NetworkClient.custom url cid)

/-- The bookkeeping of one in-flight `lookupNetwork` call: whether its
`networkDidChange` listener is still subscribed, the `networkChanged`
flag, and the `isInfura` value captured at the start of the call
(source lines 492-505). -/
structure ProbeState where
  subscribed : Bool
  changed : Bool
  isInfura : Bool
deriving DecidableEq, Repr

/-- A controller instance: the public state plus the private fields
`#previousProviderConfig`, `#ethQuery` (presence), the installed client
resources, and the in-flight probes (indexed by position). -/
structure World where
  state : NetworkState
  previousProviderConfig : ProviderConfig
  ethQuery : Bool
  installedClient : Option NetworkClient
  probes : List ProbeState
deriving DecidableEq, Repr

/-- A `networkDidChange` publication as seen by probe listeners (source
lines 495-505): every still-subscribed listener records
`networkChanged = true` and unsubscribes itself. -/
def markProbesChanged (ps : List ProbeState) : List ProbeState :=
  List.map
    (fun p =>
      if p.subscribed then { p with changed := true, subscribed := false } else p)
    ps

/-- The state reset at the start of `#refreshNetwork` (source lines
394-400): `networkId` to null, `networkStatus` to unknown, fresh empty
`EIPS`. -/
def resetNetworkState (s : NetworkState) : NetworkState :=
  { s with
    networkId := none
    networkStatus := NetworkStatus.unknown
    networkDetails := { EIPS := [] } }

/-- The synchronous prefix of a `lookupNetwork` call (source lines
488-505): if `#ethQuery` is absent, return without subscribing;
otherwise record a new probe, subscribed and unchanged, capturing
`isInfura` from the current provider config. -/
def startProbe (w : World) : World :=
  if w.ethQuery then
    { w with
      probes :=
        w.probes ++
          [{ subscribed := true
             changed := false
             isInfura := isInfuraProviderType w.state.providerConfig.type }] }
  else w

/-- The successive internal steps of `#refreshNetwork` (source lines
392-405). -/
inductive RefreshStep
  | publishWillChange
  | resetConnectivityState
  | installResources
  | publishDidChange
  | startLookup
deriving DecidableEq, Repr

/-- The micro-trace of `#refreshNetwork`: each synchronous step paired
with the world immediately after it. When `#configureProvider` throws,
the sequence stops after the state reset (the exception propagates; no
`networkDidChange`, no probe). Installing resources also installs
`#ethQuery` (`#updateProvider` → `#registerProvider`). -/
def refreshMicro (w : World) : List (RefreshStep × World) :=
  let w1 := w
  let w2 := { w1 with state := resetNetworkState w1.state }
  match configureProvider w2.state.providerConfig.type w2.state.providerConfig.rpcUrl
      (some w2.state.providerConfig.chainId) with
  | Except.error _ =>
    [(RefreshStep.publishWillChange, w1), (RefreshStep.resetConnectivityState, w2)]
  | Except.ok client =>
    let w3 := { w2 with installedClient := some client, ethQuery := true }
    let w4 := { w3 with probes := markProbesChanged w3.probes }
    let w5 := startProbe w4
    [(RefreshStep.publishWillChange, w1), (RefreshStep.resetConnectivityState, w2),
      (RefreshStep.installResources, w3), (RefreshStep.publishDidChange, w4),
      (RefreshStep.startLookup, w5)]

/-- The result of the synchronous part of `#refreshNetwork`: the final
world (partial effects included when `#configureProvider` throws) plus
the propagated error, if any. -/
def refreshSync (w : World) : World × Option String :=
  let w2 := { w with state := resetNetworkState w.state }
  match configureProvider w2.state.providerConfig.type w2.state.providerConfig.rpcUrl
      (some w2.state.providerConfig.chainId) with
  | Except.error e => (w2, some e)
  | Except.ok client =>
    let w3 := { w2 with installedClient := some client, ethQuery := true }
    let w4 := { w3 with probes := markProbesChanged w3.probes }
    (startProbe w4, none)

/-- Resolution of an in-flight probe (source lines 511-581): the awaited
requests settle with outcome `f`; the probe computes its `LookupResult`,
then — unless its `networkChanged` flag was set — unsubscribes, commits
the result, and publishes the blocked/unblocked notifications. A stale
probe changes nothing and publishes nothing. -/
def probeResolve (w : World) (pid : Nat) (f : FetchOutcome) : World × List NEvent :=
  match w.probes[pid]? with
  | none => (w, [])
  | some p =>
    let r := lookupOutcome p.isInfura f
    if p.changed then (w, [])
    else
      ({ w with
          state := commitLookup w.state r
          probes := w.probes.set pid { p with subscribed := false } },
        lookupEvents p.isInfura r.status)

/-- Snapshot-and-switch core shared by `setProviderType` and
`setActiveNetwork`: store the previous config, install the new one, run
the refresh sequence's synchronous part. -/
def switchCore (w : World) (cfg : ProviderConfig) : World × Option String :=
  let w1 := { w with previousProviderConfig := w.state.providerConfig }
  refreshSync { w1 with state := { w1.state with providerConfig := cfg } }

/-- `NetworksTicker` of `@metamask/controller-utils` (values as pinned by
the test suite: ETH, GoerliETH, SepoliaETH). -/
def networksTickerTable : NetworkType → String
  | NetworkType.mainnet => "ETH"
  | NetworkType.goerli => "GoerliETH"
  | NetworkType.sepolia => "SepoliaETH"
  | NetworkType.rpc => ""

/-- `ChainId` of `@metamask/controller-utils` (values as pinned by the
test suite). The `rpc` entry is unused: `setProviderType` rejects `rpc`
before this table is consulted. -/
def chainIdTable : NetworkType → String
  | NetworkType.mainnet => "0x1"
  | NetworkType.goerli => "0x5"
  | NetworkType.sepolia => "0xaa36a7"
  | NetworkType.rpc => "0x0"

/-- `BUILT_IN_NETWORKS[type].rpcPrefs` of `@metamask/controller-utils`
(block explorer URLs as pinned by the test suite). -/
def builtInRpcPrefsTable : NetworkType → Option RpcPrefs
  | NetworkType.mainnet => some { blockExplorerUrl := some "https://etherscan.io" }
  | NetworkType.goerli => some { blockExplorerUrl := some "https://goerli.etherscan.io" }
  | NetworkType.sepolia => some { blockExplorerUrl := some "https://sepolia.etherscan.io" }
  | NetworkType.rpc => none

/-- `setProviderType` (source lines 589-617): rejects `rpc` and unknown
types, snapshots the previous config, sets the fixed descriptor for the
given Infura network (clearing `rpcUrl`, `nickname`, `id`), and runs the
refresh sequence. -/
def setProviderType (w : World) (t : NetworkType) : World × Option String :=
  if t = NetworkType.rpc then
    (w, some "NetworkController - cannot call setProviderType with type rpc. Use setActiveNetwork")
  else if !isInfuraProviderType t then (w, some "Unknown Infura provider type")
  else
    let ticker :=
      if (networksTickerTable t).length > 0 then networksTickerTable t else "ETH"
    switchCore w
      { rpcUrl := none
        type := t
        chainId := chainIdTable t
        ticker := some ticker
        nickname := none
        rpcPrefs := builtInRpcPrefsTable t
        id := none }

/-- `setActiveNetwork` (source lines 624-647): snapshots the previous
config FIRST, then looks up the target network configuration, throwing
when the id is unknown; otherwise copies the stored fields into the
provider config (type `rpc`) and runs the refresh sequence. -/
def setActiveNetwork (w : World) (networkConfigurationId : String) :
    World × Option String :=
  let w1 := { w with previousProviderConfig := w.state.providerConfig }
  match regLookup w1.state.networkConfigurations networkConfigurationId with
  | none =>
    (w1, some "networkConfigurationId does not match a configured networkConfiguration")
  | some targetNetwork =>
    refreshSync
      { w1 with
        state :=
          { w1.state with
            providerConfig :=
              { rpcUrl := some targetNetwork.rpcUrl
                type := NetworkType.rpc
                chainId := targetNetwork.chainId
                ticker := some targetNetwork.ticker
                nickname := targetNetwork.nickname
                rpcPrefs := targetNetwork.rpcPrefs
                id := some targetNetwork.id } } }

/-- `rollbackToPreviousProvider` (source lines 865-870): sets the
provider config to `#previousProviderConfig` (without re-snapshotting
it) and runs the refresh sequence. -/
def rollbackToPreviousProvider (w : World) : World × Option String :=
  refreshSync
    { w with state := { w.state with providerConfig := w.previousProviderConfig } }

/-- Completes the probe spawned by the most recent refresh sequence (the
`await this.lookupNetwork()` at the end of `#refreshNetwork`), resolving
its requests with outcome `f`. -/
def completeLatestProbe (w : World) (f : FetchOutcome) : World :=
  (probeResolve w (w.probes.length - 1) f).1

/-- Boolean prefix test on character lists. -/
def listIsPrefixOf : List Char → List Char → Bool
  | [], _ => true
  | _ :: _, [] => false
  | a :: as, b :: bs => a = b && listIsPrefixOf as bs

/-- Modelled from the spec: the host platform's `new URL(rpcUrl)` parse
(outside this repository) — "URL is present and parses as a URL". Modelled
as requiring an explicit http(s) scheme, the form all URLs in the spec
and test suite take. -/
def isValidUrl (s : String) : Bool :=
  listIsPrefixOf "http://".data s.data || listIsPrefixOf "https://".data s.data

/-- Modelled from the spec: `isSafeChainId` of `@metamask/controller-utils`
(outside `src/`) — "chain id is a well-formed, range-safe hex value",
rejected when its "numerical value is greater than max safe value". -/
def isSafeChainId (s : String) : Bool :=
  0 < hexToNat s && hexToNat s ≤ 9007199254740991

/-- ASCII lower-casing of one character. -/
def jsCharToLower (c : Char) : Char :=
  if ('A' ≤ c) && (c ≤ 'Z') then Char.ofNat (c.toNat + 32) else c

/-- JavaScript `String.prototype.toLowerCase` on the ASCII URLs involved. -/
def jsToLower (s : String) : String :=
  String.mk (s.data.map jsCharToLower)

/-- Result of `upsertNetworkConfiguration`: final world, the returned id
(`none` when the call threw), the thrown error, and whether the
`Custom Network Added` tracking event was emitted. -/
structure UpsertOutcome where
  world : World
  returnedId : Option String
  error : Option String
  trackedNewNetwork : Bool
deriving DecidableEq, Repr

/-- `upsertNetworkConfiguration` (source lines 752-842): validates the
chain id (strict hex, range-safe), `rpcUrl` present, `referrer`/`source`
present, URL well-formed, ticker present; then matches the lowercased
`rpcUrl` against `Object.values` of the registry. A (truthy) match keeps
that entry's id, otherwise the fresh id `freshId` (modelling `uuid.v4()`)
is used. The entry is written with the object spread
`\x7b...old, [newId]: \x7b...config, id: newId\x7d\x7d`; the tracking
event is emitted only when no truthy existing id was found; finally
`setActiveNetwork` runs when `setActive`. -/
def upsertNetworkConfiguration (w : World) (nc : NetworkConfiguration)
    (setActive : Bool) (referrer source : String) (freshId : String) :
    UpsertOutcome :=
  if !isStrictHexString nc.chainId then
    { world := w, returnedId := none
      error := some "chainId must be a strict hex string", trackedNewNetwork := false }
  else if !isSafeChainId nc.chainId then
    { world := w, returnedId := none
      error := some "Invalid chain ID: numerical value greater than max safe value"
      trackedNewNetwork := false }
  else if nc.rpcUrl = "" then
    { world := w, returnedId := none
      error := some "An rpcUrl is required to add or update network configuration"
      trackedNewNetwork := false }
  else if referrer = "" || source = "" then
    { world := w, returnedId := none
      error := some "referrer and source are required arguments for adding or updating a network configuration"
      trackedNewNetwork := false }
  else if !isValidUrl nc.rpcUrl then
    { world := w, returnedId := none
      error := some "rpcUrl must be a valid URL", trackedNewNetwork := false }
  else if nc.ticker = "" then
    { world := w, returnedId := none
      error := some "A ticker is required to add or update networkConfiguration"
      trackedNewNetwork := false }
  else
    let oldNetworkConfigurations := w.state.networkConfigurations
    let oldNetworkConfigurationId : Option String :=
      (List.find? (fun e => jsToLower e.rpcUrl = jsToLower nc.rpcUrl)
          (regValues oldNetworkConfigurations)).map
        (fun e => e.id)
    let newNetworkConfigurationId :=
      match oldNetworkConfigurationId with
      | some i => if i = "" then freshId else i
      | none => freshId
    let isNewEntry :=
      match oldNetworkConfigurationId with
      | some i => i = ""
      | none => true
    let entry : StoredNetworkConfiguration :=
      { rpcUrl := nc.rpcUrl
        chainId := nc.chainId
        ticker := nc.ticker
        nickname := nc.nickname
        rpcPrefs := nc.rpcPrefs
        id := newNetworkConfigurationId }
    let w2 :=
      { w with
        state :=
          { w.state with
            networkConfigurations :=
              regSet oldNetworkConfigurations newNetworkConfigurationId entry } }
    if setActive then
      match setActiveNetwork w2 newNetworkConfigurationId with
      | (w3, some e) =>
        { world := w3, returnedId := none, error := some e
          trackedNewNetwork := isNewEntry }
      | (w3, none) =>
        { world := w3, returnedId := some newNetworkConfigurationId, error := none
          trackedNewNetwork := isNewEntry }
    else
      { world := w2, returnedId := some newNetworkConfigurationId, error := none
        trackedNewNetwork := isNewEntry }

/-- `removeNetworkConfiguration` (source lines 849-858). -/
def removeNetworkConfiguration (w : World) (networkConfigurationId : String) :
    World × Option String :=
  match regLookup w.state.networkConfigurations networkConfigurationId with
  | none =>
    (w, some "networkConfigurationId does not match a configured networkConfiguration")
  | some _ =>
    ({ w with
        state :=
          { w.state with
            networkConfigurations :=
              List.filter (fun p => p.1 ≠ networkConfigurationId)
                w.state.networkConfigurations } },
      none)

/-- Result of a `getEIP1559Compatibility` call: the final world, the
returned value (`none` when the remote request rejected and the error
propagated), and whether a remote request was issued. -/
structure Eip1559CallResult where
  world : World
  result : Option Bool
  requestIssued : Bool
deriving DecidableEq, Repr

/-- `getEIP1559Compatibility` (source lines 676-692): returns the cached
`EIPS[1559]` flag when defined; returns `false` without touching state
when `#ethQuery` is absent; otherwise issues the latest-block request
(its outcome is the `remote` parameter), commits the compatibility flag,
and returns it. -/
def getEIP1559Compatibility (w : World)
    (remote : Except JsError (Option Block)) : Eip1559CallResult :=
  match lookupEIP w.state.networkDetails.EIPS 1559 with
  | some cached => { world := w, result := some cached, requestIssued := false }
  | none =>
    if !w.ethQuery then { world := w, result := some false, requestIssued := false }
    else
      match remote with
      | Except.error _ => { world := w, result := none, requestIssued := true }
      | Except.ok blk =>
        let isEIP1559Compatible := determineEIP1559Compatibility blk
        { world :=
            { w with
              state :=
                { w.state with
                  networkDetails :=
                    { EIPS :=
                        setEIP w.state.networkDetails.EIPS 1559 isEIP1559Compatible } } }
          result := some isEIP1559Compatible
          requestIssued := true }

/-- A `Partial<NetworkState>` constructor argument: per top-level field,
`some v` when the field is present and `none` when omitted. -/
structure StateOverrides where
  networkId : Option (Option String)
  networkStatus : Option NetworkStatus
  providerConfig : Option ProviderConfig
  networkDetails : Option NetworkDetails
  networkConfigurations : Option Registry
deriving DecidableEq, Repr

/-- The object spread `\x7b ...defaultState, ...state \x7d` of the
constructor (source line 332): a shallow merge substituting each provided
top-level field wholesale. -/
def mergedConstructorState (o : StateOverrides) : NetworkState :=
  { networkId := o.networkId.getD defaultState.networkId
    networkStatus := o.networkStatus.getD defaultState.networkStatus
    providerConfig := o.providerConfig.getD defaultState.providerConfig
    networkDetails := o.networkDetails.getD defaultState.networkDetails
    networkConfigurations :=
      o.networkConfigurations.getD defaultState.networkConfigurations }

/-- The `NetworkController` constructor (source lines 301-354): merges the
given partial state over the defaults, rejects a falsy
`infuraProjectId`, and initializes `#previousProviderConfig` to the
merged state's provider config; no resources are installed yet. -/
def constructController (o : StateOverrides) (infuraProjectId : String) :
    Except String World :=
  let s := mergedConstructorState o
  if infuraProjectId = "" then Except.error "Invalid Infura project ID"
  else
    Except.ok
      { state := s
        previousProviderConfig := s.providerConfig
        ethQuery := false
        installedClient := none
        probes := [] }

/-! Concrete instances used by counterexamples and witnesses. -/

/-- A custom provider config standing for the network active before the
most recent switch. -/
def customPConfig : ProviderConfig :=
  { rpcUrl := some "https://previous.example"
    type := NetworkType.rpc
    chainId := "0x2"
    ticker := some "PREV"
    nickname := none
    rpcPrefs := none
    id := some "prev-id" }

/-- A custom provider config standing for a network B switched to while
a probe of the old network is in flight. -/
def customBConfig : ProviderConfig :=
  { rpcUrl := some "https://network-b.example"
    type := NetworkType.rpc
    chainId := "0x539"
    ticker := some "B"
    nickname := none
    rpcPrefs := none
    id := some "b-id" }

/-- A controller on mainnet with resources installed, whose previous
provider config is `customPConfig`. -/
def exampleWorld : World :=
  { state := defaultState
    previousProviderConfig := customPConfig
    ethQuery := true
    installedClient := some (NetworkClient.infura NetworkType.mainnet)
    probes := [] }

/-- `exampleWorld` with one in-flight (subscribed, unchanged) probe. -/
def exampleProbeWorld : World := startProbe exampleWorld

/-- A stored custom network configuration with an upper-case URL. -/
def exampleStored : StoredNetworkConfiguration :=
  { rpcUrl := "https://X.example"
    chainId := "0x1"
    ticker := "OLD"
    nickname := none
    rpcPrefs := none
    id := "id1" }

/-- `exampleWorld` with `exampleStored` registered under `id1`. -/
def exampleRegistryWorld : World :=
  { exampleWorld with
    state := { exampleWorld.state with networkConfigurations := [("id1", exampleStored)] } }

/-- The geoblocked Infura response: an internal RPC error whose message
is `JSON.stringify` of the blocked payload (as built by the test suite). -/
def blockedFetch : FetchOutcome :=
  FetchOutcome.failure
    { hasCode := true
      code := -32603
      messageJson := some (JsonValue.obj [("error", JsonValue.str "countryBlocked")]) }

/-- A rate-limit RPC error: carries a `code` (`-32005`, limitExceeded)
that is neither the blocked payload nor the internal error code. -/
def limitExceededFetch : FetchOutcome :=
  FetchOutcome.failure { hasCode := true, code := -32005, messageJson := none }

/-- A successful fetch whose `net_version` result (`"invalid"`) matches
none of the accepted network-id forms. -/
def malformedIdFetch : FetchOutcome :=
  FetchOutcome.success (JsonValue.str "invalid") (some { baseFeePerGas := some "0x1" })

/-- A fully successful fetch: `net_version` returns `"42"` and the
latest block carries a base fee. -/
def successFetch : FetchOutcome :=
  FetchOutcome.success (JsonValue.str "42") (some { baseFeePerGas := some "0x1" })

/-- A partial initial state providing only `providerConfig`
(as `customPConfig`, whose chainId differs from the default). -/
def exampleOverrides : StateOverrides :=
  { networkId := none
    networkStatus := none
    providerConfig := some customPConfig
    networkDetails := none
    networkConfigurations := none }

/-- The controller produced by the constructor from `exampleOverrides`. -/
def exampleConstructedWorld : World :=
  { state :=
      { networkId := none
        networkStatus := NetworkStatus.unknown
        providerConfig := customPConfig
        networkDetails := { EIPS := [] }
        networkConfigurations := [] }
    previousProviderConfig := customPConfig
    ethQuery := false
    installedClient := none
    probes := [] }

/-! Helper lemmas shared across the verification. -/

/-- Overwriting the (present) key `k` of an association list puts `(k, v)`
at the first position holding `k`; a lookup of `k` then finds `(k, v)`. -/
theorem find?_map_update {α β : Type} [DecidableEq α] (l : List (α × β)) (k : α) (v : β)
    (h : List.any l (fun p => p.1 = k) = true) :
    List.find? (fun p => p.1 = k)
      (List.map (fun p => if p.1 = k then (k, v) else p) l) = some (k, v) := by
  induction l with
  | nil => simp at h
  | cons p t ih =>
    by_cases hp : p.1 = k
    · simp [List.find?_cons, hp]
    · simp only [List.any_cons, Bool.or_eq_true, decide_eq_true_eq] at h
      rcases h with h | h
      · exact absurd h hp
      · simpa [List.find?_cons, hp] using ih h

/-- Appending `(k, v)` to an association list without the key `k` makes a
lookup of `k` find `(k, v)`. -/
theorem find?_append_single {α β : Type} [DecidableEq α] (l : List (α × β)) (k : α) (v : β)
    (h : List.any l (fun p => p.1 = k) = false) :
    List.find? (fun p => p.1 = k) (l ++ [(k, v)]) = some (k, v) := by
  induction l with
  | nil => simp [List.find?_cons]
  | cons p t ih =>
    simp only [List.any_cons, Bool.or_eq_false_iff, decide_eq_false_iff_not] at h
    simpa [List.find?_cons, h.1] using ih (by simp [h.2])

/-- `EIPS[k] = v` makes `EIPS[k]` read back `v`. -/
theorem lookupEIP_setEIP (l : List (Nat × Bool)) (k : Nat) (v : Bool) :
    lookupEIP (setEIP l k v) k = some v := by
  unfold lookupEIP setEIP
  split
  · rename_i h
    rw [find?_map_update l k v h]
    rfl
  · rename_i h
    rw [Bool.not_eq_true] at h
    rw [find?_append_single l k v h]
    rfl

/-- Registry write of key `k` makes a lookup of `k` find the new entry. -/
theorem regLookup_regSet_self (r : Registry) (k : String) (v : StoredNetworkConfiguration) :
    regLookup (regSet r k v) k = some v := by
  unfold regLookup regSet
  split
  · rename_i h
    rw [find?_map_update r k v h]
    rfl
  · rename_i h
    rw [Bool.not_eq_true] at h
    rw [find?_append_single r k v h]
    rfl

/-- The connectivity commit over freshly reset (empty) `EIPS` stores
exactly the probe's EIP-1559 outcome. -/
theorem lookupEIP_commit_of_empty (s : NetworkState) (r : LookupResult)
    (h : s.networkDetails.EIPS = []) :
    lookupEIP ((commitLookup s r).networkDetails.EIPS) 1559 = r.eip1559 := by
  cases hr : r.eip1559 with
  | none => simp [commitLookup, hr, h, deleteEIP, lookupEIP]
  | some b =>
    simp only [commitLookup, hr, h]
    exact lookupEIP_setEIP [] 1559 b

theorem refreshSync_fst_providerConfig (w : World) :
    ((refreshSync w).1).state.providerConfig = w.state.providerConfig := by
  unfold refreshSync
  dsimp only
  split <;> simp [startProbe, resetNetworkState]

theorem refreshSync_fst_previousProviderConfig (w : World) :
    ((refreshSync w).1).previousProviderConfig = w.previousProviderConfig := by
  unfold refreshSync
  dsimp only
  split <;> simp [startProbe, resetNetworkState]

theorem refreshSync_fst_networkConfigurations (w : World) :
    ((refreshSync w).1).state.networkConfigurations = w.state.networkConfigurations := by
  unfold refreshSync
  dsimp only
  split <;> simp [startProbe, resetNetworkState]

theorem probeResolve_fst_providerConfig (w : World) (pid : Nat) (f : FetchOutcome) :
    ((probeResolve w pid f).1).state.providerConfig = w.state.providerConfig := by
  unfold probeResolve
  split
  · rfl
  · split
    · rfl
    · simp [commitLookup]

theorem probeResolve_fst_previousProviderConfig (w : World) (pid : Nat) (f : FetchOutcome) :
    ((probeResolve w pid f).1).previousProviderConfig = w.previousProviderConfig := by
  unfold probeResolve
  split
  · rfl
  · split
    · rfl
    · simp [commitLookup]

theorem completeLatestProbe_providerConfig (w : World) (f : FetchOutcome) :
    (completeLatestProbe w f).state.providerConfig = w.state.providerConfig :=
  probeResolve_fst_providerConfig w (w.probes.length - 1) f

theorem completeLatestProbe_previousProviderConfig (w : World) (f : FetchOutcome) :
    (completeLatestProbe w f).previousProviderConfig = w.previousProviderConfig :=
  probeResolve_fst_previousProviderConfig w (w.probes.length - 1) f

/-! Claim C2. -/

/-- C2 counterexample: on a controller whose previous provider config
(`customPConfig`) differs from the active one (mainnet),
`rollbackToPreviousProvider` leaves `#previousProviderConfig` untouched —
it is NOT updated to the config active immediately before the rollback —
and a second consecutive rollback does NOT swap back to the original
active config. -/
theorem rollback_resnapshot_counterexample :
    ((rollbackToPreviousProvider exampleWorld).1).previousProviderConfig ≠
      exampleWorld.state.providerConfig ∧
    ((rollbackToPreviousProvider
          (rollbackToPreviousProvider exampleWorld).1).1).state.providerConfig ≠
      exampleWorld.state.providerConfig := by
  decide

/-- C2 (amended): `rollbackToPreviousProvider` sets the active provider
config to the stored `#previousProviderConfig` and leaves
`#previousProviderConfig` unchanged (the refresh sequence never
re-snapshots it); consequently two consecutive rollbacks both yield the
same previous config — the second is a no-op on the active config, not a
swap. -/
theorem rollback_restores_previous_without_resnapshot (w : World) :
    ((rollbackToPreviousProvider w).1).state.providerConfig =
      w.previousProviderConfig ∧
    ((rollbackToPreviousProvider w).1).previousProviderConfig =
      w.previousProviderConfig ∧
    ((rollbackToPreviousProvider
          (rollbackToPreviousProvider w).1).1).state.providerConfig =
      w.previousProviderConfig := by
  unfold rollbackToPreviousProvider
  refine ⟨?_, ?_, ?_⟩
  · rw [refreshSync_fst_providerConfig]
  · rw [refreshSync_fst_previousProviderConfig]
  · rw [refreshSync_fst_providerConfig, refreshSync_fst_previousProviderConfig]

/-! Claim C5. -/

/-- C5 counterexample: calling `setActiveNetwork` with an id absent from
the registry does throw, but it does NOT leave the entire system
unchanged — the stored `#previousProviderConfig` snapshot has already
been overwritten (here: from `customPConfig` to the active mainnet
config), so a subsequent rollback would no longer restore
`customPConfig`. -/
theorem setActiveNetwork_unknown_id_snapshot_counterexample :
    (setActiveNetwork exampleWorld "missing").2.isSome = true ∧
    ((setActiveNetwork exampleWorld "missing").1).previousProviderConfig ≠
      exampleWorld.previousProviderConfig := by
  decide

/-- C5 (amended): for an id absent from the registry, `setActiveNetwork`
fails with the unknown-endpoint error before any mutation of the
controller state (active provider config, connectivity state, registry)
or of the installed resources — but only AFTER overwriting
`#previousProviderConfig` with the currently-active config, so a
subsequent rollback re-selects the current config instead of the
pre-call snapshot. -/
theorem setActiveNetwork_unknown_id_fails_before_state_mutation
    (w : World) (id : String)
    (h : regLookup w.state.networkConfigurations id = none) :
    (setActiveNetwork w id).2 =
      some "networkConfigurationId does not match a configured networkConfiguration" ∧
    ((setActiveNetwork w id).1).state = w.state ∧
    ((setActiveNetwork w id).1).installedClient = w.installedClient ∧
    ((setActiveNetwork w id).1).ethQuery = w.ethQuery ∧
    ((setActiveNetwork w id).1).probes = w.probes ∧
    ((setActiveNetwork w id).1).previousProviderConfig = w.state.providerConfig := by
  unfold setActiveNetwork
  dsimp only
  rw [h]
  simp

/-- C5 witness: the amended theorem applied to `exampleWorld` and the
unknown id `missing`. -/
theorem setActiveNetwork_unknown_id_witness :
    regLookup exampleWorld.state.networkConfigurations "missing" = none ∧
    ((setActiveNetwork exampleWorld "missing").1).state = exampleWorld.state ∧
    ((setActiveNetwork exampleWorld "missing").1).previousProviderConfig =
      exampleWorld.state.providerConfig :=
  ⟨by decide,
    (setActiveNetwork_unknown_id_fails_before_state_mutation exampleWorld "missing"
        (by decide)).2.1,
    (setActiveNetwork_unknown_id_fails_before_state_mutation exampleWorld "missing"
        (by decide)).2.2.2.2.2⟩

/-! Claim C3. -/

/-- C3 counterexample: a probe whose fetched chain generation id matches
none of the accepted forms (an error that is neither the blocked payload
nor the internal RPC error code) commits `networkStatus = unknown`, not
`unavailable`: the thrown `Cannot parse as a valid network ID` error is a
plain `Error` without a `code` property, and `lookupNetwork` classifies
code-less errors as `unknown` (as the repository's own test
"if an invalid network ID is returned → unknown" pins down). -/
theorem malformed_networkId_commits_unknown_counterexample :
    ((probeResolve exampleProbeWorld 0 malformedIdFetch).1).state.networkStatus =
      NetworkStatus.unknown ∧
    NetworkStatus.unknown ≠ NetworkStatus.unavailable := by
  decide

/-- C3 (amended): for every completed (non-stale) probe failure whose
error CARRIES a `code` property and is neither the geofencing/blocked
payload nor the internal JSON-RPC error code, `lookupNetwork` commits
`networkStatus = unavailable`; a failure whose error carries no `code`
property — including the error thrown when the fetched chain generation
id matches none of (number, 0x-hex string, decimal string) — commits
`networkStatus = unknown` instead. -/
theorem lookupNetwork_error_classification (w : World) (pid : Nat) (p : ProbeState)
    (f : FetchOutcome) (hp : w.probes[pid]? = some p) (hc : p.changed = false) :
    (∀ e : JsError, f = FetchOutcome.failure e → e.hasCode = true →
      isBlockedBody (if p.isInfura then e.messageJson else none) = false →
      e.code ≠ errorCodesRpcInternal →
      ((probeResolve w pid f).1).state.networkStatus = NetworkStatus.unavailable) ∧
    (∀ e : JsError, f = FetchOutcome.failure e → e.hasCode = false →
      ((probeResolve w pid f).1).state.networkStatus = NetworkStatus.unknown) ∧
    (∀ v blk, f = FetchOutcome.success v blk → convertNetworkId v = none →
      ((probeResolve w pid f).1).state.networkStatus = NetworkStatus.unknown) := by
  refine ⟨?_, ?_, ?_⟩
  · intro e hf hcode hblocked hint
    subst hf
    unfold probeResolve
    rw [hp]
    simp [hc, commitLookup, lookupOutcome, classifyLookupError, hcode, hblocked, hint]
  · intro e hf hcode
    subst hf
    unfold probeResolve
    rw [hp]
    simp [hc, commitLookup, lookupOutcome, classifyLookupError, hcode]
  · intro v blk hf hconv
    subst hf
    unfold probeResolve
    rw [hp]
    simp [hc, commitLookup, lookupOutcome, hconv]

/-- C3 witness: the amended theorem applied to a non-stale Infura probe
failing with the limit-exceeded error (`code -32005`). -/
theorem lookupNetwork_error_classification_witness :
    exampleProbeWorld.probes[0]? =
      some { subscribed := true, changed := false, isInfura := true } ∧
    ((probeResolve exampleProbeWorld 0 limitExceededFetch).1).state.networkStatus =
      NetworkStatus.unavailable :=
  ⟨by decide,
    (lookupNetwork_error_classification exampleProbeWorld 0
          { subscribed := true, changed := false, isInfura := true }
          limitExceededFetch (by decide) rfl).1
      { hasCode := true, code := -32005, messageJson := none } rfl rfl (by decide)
      (by decide)⟩

/-! Claim C4. -/

/-- C4: for every completed (non-stale) probe: on a managed (Infura)
network, exactly one `infuraIsBlocked` and zero `infuraIsUnblocked`
notifications are published when the status settled to blocked, and
exactly one `infuraIsUnblocked` and zero `infuraIsBlocked` when it
settled to available; on a directly-configured (non-Infura) endpoint,
exactly one `infuraIsUnblocked` and zero `infuraIsBlocked` are published
regardless of the probe's outcome, including outright failure. -/
theorem lookupNetwork_notification_policy (w : World) (pid : Nat) (p : ProbeState)
    (f : FetchOutcome) (hp : w.probes[pid]? = some p) (hc : p.changed = false) :
    (p.isInfura = true →
      ((lookupOutcome p.isInfura f).status = NetworkStatus.blocked →
        (probeResolve w pid f).2.count NEvent.infuraIsBlocked = 1 ∧
        (probeResolve w pid f).2.count NEvent.infuraIsUnblocked = 0) ∧
      ((lookupOutcome p.isInfura f).status = NetworkStatus.available →
        (probeResolve w pid f).2.count NEvent.infuraIsUnblocked = 1 ∧
        (probeResolve w pid f).2.count NEvent.infuraIsBlocked = 0)) ∧
    (p.isInfura = false →
      (probeResolve w pid f).2.count NEvent.infuraIsUnblocked = 1 ∧
      (probeResolve w pid f).2.count NEvent.infuraIsBlocked = 0) := by
  have hev : (probeResolve w pid f).2 =
      lookupEvents p.isInfura (lookupOutcome p.isInfura f).status := by
    unfold probeResolve
    rw [hp]
    simp [hc]
  refine ⟨fun hi => ⟨fun hs => ?_, fun hs => ?_⟩, fun hi => ?_⟩
  · rw [hev, hs]
    simp [lookupEvents, hi]
  · rw [hev, hs]
    simp [lookupEvents, hi]
  · rw [hev]
    simp [lookupEvents, hi]

/-- C4 witness: the theorem applied to a non-stale Infura probe hitting
the geoblocked response: exactly one `infuraIsBlocked`, zero
`infuraIsUnblocked`. -/
theorem lookupNetwork_notification_policy_witness :
    exampleProbeWorld.probes[0]? =
      some { subscribed := true, changed := false, isInfura := true } ∧
    (probeResolve exampleProbeWorld 0 blockedFetch).2.count NEvent.infuraIsBlocked = 1 :=
  ⟨by decide,
    (((lookupNetwork_notification_policy exampleProbeWorld 0
              { subscribed := true, changed := false, isInfura := true }
              blockedFetch (by decide) rfl).1 rfl).1 (by decide)).1⟩

/-! Claim C9. -/

/-- C9: `getEIP1559Compatibility` returns the cached `EIPS[1559]` flag —
whether true or false — without issuing any remote request and without
changing state; when the flag is absent and resources are installed, it
issues exactly the fee-capability request, commits the result to
`EIPS[1559]`, and returns it; when no resources are installed, it returns
false with no state change and no request. -/
theorem getEIP1559Compatibility_caching (w : World)
    (remote : Except JsError (Option Block)) :
    (∀ b : Bool, lookupEIP w.state.networkDetails.EIPS 1559 = some b →
      getEIP1559Compatibility w remote =
        { world := w, result := some b, requestIssued := false }) ∧
    (lookupEIP w.state.networkDetails.EIPS 1559 = none → w.ethQuery = true →
      ∀ blk : Option Block, remote = Except.ok blk →
        (getEIP1559Compatibility w remote).requestIssued = true ∧
        (getEIP1559Compatibility w remote).result =
          some (determineEIP1559Compatibility blk) ∧
        lookupEIP
            ((getEIP1559Compatibility w remote).world).state.networkDetails.EIPS
            1559 =
          some (determineEIP1559Compatibility blk)) ∧
    (lookupEIP w.state.networkDetails.EIPS 1559 = none → w.ethQuery = false →
      getEIP1559Compatibility w remote =
        { world := w, result := some false, requestIssued := false }) := by
  refine ⟨?_, ?_, ?_⟩
  · intro b hb
    unfold getEIP1559Compatibility
    rw [hb]
  · intro hnone hq blk hr
    subst hr
    unfold getEIP1559Compatibility
    rw [hnone]
    simp only [hq]
    refine ⟨rfl, rfl, ?_⟩
    exact lookupEIP_setEIP w.state.networkDetails.EIPS 1559
      (determineEIP1559Compatibility blk)
  · intro hnone hq
    unfold getEIP1559Compatibility
    rw [hnone]
    simp [hq]

/-- C9 witness: the theorem applied to `exampleProbeWorld` (no cached
flag, resources installed) and a base-fee-carrying block, and to a
controller with a cached `false`. -/
theorem getEIP1559Compatibility_caching_witness :
    lookupEIP exampleProbeWorld.state.networkDetails.EIPS 1559 = none ∧
    exampleProbeWorld.ethQuery = true ∧
    (getEIP1559Compatibility exampleProbeWorld
        (Except.ok (some { baseFeePerGas := some "0x1" }))).result = some true :=
  ⟨by decide, by decide,
    (((getEIP1559Compatibility_caching exampleProbeWorld
            (Except.ok (some { baseFeePerGas := some "0x1" }))).2.1
        (by decide) (by decide) (some { baseFeePerGas := some "0x1" }) rfl)).2.1⟩

/-! Claim C10. -/

/-- C10: the constructor's state is the default state with each provided
top-level field of the partial initial state substituted wholesale
(shallow merge): a provided `providerConfig` or `networkDetails` object
replaces the corresponding default object entirely, and omitted
top-level fields keep their defaults. -/
theorem constructor_shallow_merge (o : StateOverrides) (projectId : String)
    (w : World) (h : constructController o projectId = Except.ok w) :
    (∀ v, o.networkId = some v → w.state.networkId = v) ∧
    (o.networkId = none → w.state.networkId = defaultState.networkId) ∧
    (∀ v, o.networkStatus = some v → w.state.networkStatus = v) ∧
    (o.networkStatus = none → w.state.networkStatus = defaultState.networkStatus) ∧
    (∀ v, o.providerConfig = some v → w.state.providerConfig = v) ∧
    (o.providerConfig = none →
      w.state.providerConfig = defaultState.providerConfig) ∧
    (∀ v, o.networkDetails = some v → w.state.networkDetails = v) ∧
    (o.networkDetails = none →
      w.state.networkDetails = defaultState.networkDetails) ∧
    (∀ v, o.networkConfigurations = some v → w.state.networkConfigurations = v) ∧
    (o.networkConfigurations = none →
      w.state.networkConfigurations = defaultState.networkConfigurations) := by
  unfold constructController at h
  dsimp only at h
  split at h
  · exact absurd h (by simp)
  · cases h
    refine ⟨?_, ?_, ?_, ?_, ?_, ?_, ?_, ?_, ?_, ?_⟩ <;>
      first
        | (intro v hv
           simp [mergedConstructorState, hv])
        | (intro hv
           simp [mergedConstructorState, hv])

/-- C10 witness: constructing from a partial state that provides only
`providerConfig = customPConfig` yields exactly that provider config —
the default chainId `0x1` inside the default provider config is not
retained (`customPConfig.chainId = 0x2`). -/
theorem constructor_shallow_merge_witness :
    constructController exampleOverrides "project-id" =
      Except.ok exampleConstructedWorld ∧
    exampleConstructedWorld.state.providerConfig = customPConfig ∧
    exampleConstructedWorld.state.providerConfig.chainId ≠
      defaultState.providerConfig.chainId :=
  ⟨rfl,
    (constructor_shallow_merge exampleOverrides "project-id"
          exampleConstructedWorld rfl).2.2.2.2.1 customPConfig rfl,
    by decide⟩

/-! Claim C6. -/

/-- C6: within one refresh sequence, the steps occur in the strict order
`networkWillChange` publication → connectivity reset (networkId null,
status unknown, EIPS cleared) → resource construction and installation →
`networkDidChange` publication → probe start; and from the reset step
onward — i.e. over the whole observable interval between the
about-to-change publication and the probe's later commit (which is
performed only by `probeResolve`, after the last step here) — the
connectivity state stays Unknown with `networkId` null and `EIPS`
cleared. -/
theorem refreshNetwork_ordering_and_unknown_interval (w : World)
    (client : NetworkClient)
    (hok : configureProvider w.state.providerConfig.type w.state.providerConfig.rpcUrl
        (some w.state.providerConfig.chainId) = Except.ok client) :
    (refreshMicro w).map Prod.fst =
      [RefreshStep.publishWillChange, RefreshStep.resetConnectivityState,
        RefreshStep.installResources, RefreshStep.publishDidChange,
        RefreshStep.startLookup] ∧
    ∀ lw ∈ (refreshMicro w).drop 1,
      lw.2.state.networkStatus = NetworkStatus.unknown ∧
      lw.2.state.networkId = none ∧
      lw.2.state.networkDetails.EIPS = [] := by
  unfold refreshMicro
  dsimp only [resetNetworkState]
  rw [hok]
  refine ⟨rfl, ?_⟩
  intro lw hlw
  simp only [List.drop_succ_cons, List.drop_zero, List.mem_cons,
    List.not_mem_nil, or_false] at hlw
  rcases hlw with h | h | h | h <;> subst h <;> simp [startProbe]

/-- C6 witness: the theorem applied to the mainnet controller
`exampleWorld`, whose provider construction succeeds. -/
theorem refreshNetwork_ordering_witness :
    configureProvider exampleWorld.state.providerConfig.type
        exampleWorld.state.providerConfig.rpcUrl
        (some exampleWorld.state.providerConfig.chainId) =
      Except.ok (NetworkClient.infura NetworkType.mainnet) ∧
    (refreshMicro exampleWorld).map Prod.fst =
      [RefreshStep.publishWillChange, RefreshStep.resetConnectivityState,
        RefreshStep.installResources, RefreshStep.publishDidChange,
        RefreshStep.startLookup] :=
  ⟨rfl,
    (refreshNetwork_ordering_and_unknown_interval exampleWorld
        (NetworkClient.infura NetworkType.mainnet) rfl).1⟩

/-! Claim C7. -/

/-- Rollback makes the stored previous config the active one. -/
theorem rollback_active_eq_prev (x : World) :
    ((rollbackToPreviousProvider x).1).state.providerConfig =
      x.previousProviderConfig := by
  unfold rollbackToPreviousProvider
  rw [refreshSync_fst_providerConfig]

/-- A successful `setProviderType` stores the pre-switch active config as
the previous config. -/
theorem setProviderType_snapshots_prev (w : World) (t : NetworkType)
    (hi : isInfuraProviderType t = true) :
    ((setProviderType w t).1).previousProviderConfig = w.state.providerConfig := by
  have ht : ¬t = NetworkType.rpc := by
    intro h
    subst h
    simp [isInfuraProviderType] at hi
  unfold setProviderType
  rw [if_neg ht, hi]
  simp only [Bool.not_true]
  rw [if_neg Bool.false_ne_true]
  unfold switchCore
  rw [refreshSync_fst_previousProviderConfig]

/-- A successful `setActiveNetwork` stores the pre-switch active config
as the previous config. -/
theorem setActiveNetwork_snapshots_prev (w : World) (id : String)
    (entry : StoredNetworkConfiguration)
    (h : regLookup w.state.networkConfigurations id = some entry) :
    ((setActiveNetwork w id).1).previousProviderConfig = w.state.providerConfig := by
  unfold setActiveNetwork
  dsimp only
  rw [h]
  dsimp only
  rw [refreshSync_fst_previousProviderConfig]

/-- C7: after one successful switch (`setProviderType` to a well-known
network, or `setActiveNetwork` to a registered custom endpoint) whose
probe completes, a `rollbackToPreviousProvider` whose probe also
completes leaves the active provider config equal, field for field, to
the config active before the switch — for any probe outcomes. -/
theorem switch_then_rollback_restores_config (w : World) (t : NetworkType)
    (id : String) (entry : StoredNetworkConfiguration) (f1 f2 : FetchOutcome) :
    (isInfuraProviderType t = true →
      (completeLatestProbe
          (rollbackToPreviousProvider
              (completeLatestProbe (setProviderType w t).1 f1)).1
          f2).state.providerConfig =
        w.state.providerConfig) ∧
    (regLookup w.state.networkConfigurations id = some entry →
      (completeLatestProbe
          (rollbackToPreviousProvider
              (completeLatestProbe (setActiveNetwork w id).1 f1)).1
          f2).state.providerConfig =
        w.state.providerConfig) := by
  constructor
  · intro hi
    rw [completeLatestProbe_providerConfig, rollback_active_eq_prev,
      completeLatestProbe_previousProviderConfig,
      setProviderType_snapshots_prev w t hi]
  · intro h
    rw [completeLatestProbe_providerConfig, rollback_active_eq_prev,
      completeLatestProbe_previousProviderConfig,
      setActiveNetwork_snapshots_prev w id entry h]

/-- C7 witness: switching `exampleRegistryWorld` to the registered custom
endpoint `id1` and rolling back restores the original mainnet provider
config. -/
theorem switch_then_rollback_witness :
    regLookup exampleRegistryWorld.state.networkConfigurations "id1" =
      some exampleStored ∧
    (completeLatestProbe
        (rollbackToPreviousProvider
            (completeLatestProbe (setActiveNetwork exampleRegistryWorld "id1").1
              successFetch)).1
        successFetch).state.providerConfig =
      exampleRegistryWorld.state.providerConfig :=
  ⟨by decide,
    (switch_then_rollback_restores_config exampleRegistryWorld NetworkType.goerli
        "id1" exampleStored successFetch successFetch).2 (by decide)⟩

/-! Claim C8. -/

/-- A `setActiveNetwork` call whose id is registered succeeds (throws
nothing) and leaves the registry untouched. -/
theorem setActiveNetwork_found_ok (w : World) (id : String)
    (tn : StoredNetworkConfiguration)
    (h : regLookup w.state.networkConfigurations id = some tn) :
    (setActiveNetwork w id).2 = none ∧
    ((setActiveNetwork w id).1).state.networkConfigurations =
      w.state.networkConfigurations := by
  unfold setActiveNetwork
  dsimp only
  rw [h]
  dsimp only
  constructor
  · unfold refreshSync
    dsimp only [resetNetworkState, configureProvider]
  · rw [refreshSync_fst_networkConfigurations]

/-- C8: after its validations pass, on a well-formed registry (each
entry's `id` equals its key and is non-empty), `upsertNetworkConfiguration`
with a configuration whose URL matches an existing entry case-insensitively
updates that entry in place — no error, same id returned, registry size
unchanged, fields replaced — and does not emit the creation-tracking
event; when no case-insensitive URL match exists (and the fresh id is
genuinely fresh and non-empty), a new entry under the fresh id is
appended, the fresh id is returned, and the tracking event is emitted. -/
theorem upsertNetworkConfiguration_url_match_semantics (w : World)
    (nc : NetworkConfiguration) (setActive : Bool)
    (referrer source freshId : String)
    (hHex : isStrictHexString nc.chainId = true)
    (hSafe : isSafeChainId nc.chainId = true)
    (hUrl : ¬nc.rpcUrl = "")
    (hRef : ¬referrer = "") (hSrc : ¬source = "")
    (hValid : isValidUrl nc.rpcUrl = true)
    (hTicker : ¬nc.ticker = "")
    (hwf : ∀ p ∈ w.state.networkConfigurations, p.2.id = p.1 ∧ ¬p.1 = "") :
    (∀ e, List.find? (fun x => jsToLower x.rpcUrl = jsToLower nc.rpcUrl)
        (regValues w.state.networkConfigurations) = some e →
      (upsertNetworkConfiguration w nc setActive referrer source freshId).error =
        none ∧
      (upsertNetworkConfiguration w nc setActive referrer source freshId).returnedId =
        some e.id ∧
      (upsertNetworkConfiguration w nc setActive referrer source
            freshId).trackedNewNetwork = false ∧
      ((upsertNetworkConfiguration w nc setActive referrer source
            freshId).world.state.networkConfigurations).length =
        w.state.networkConfigurations.length ∧
      regLookup
          (upsertNetworkConfiguration w nc setActive referrer source
              freshId).world.state.networkConfigurations e.id =
        some { rpcUrl := nc.rpcUrl, chainId := nc.chainId, ticker := nc.ticker,
               nickname := nc.nickname, rpcPrefs := nc.rpcPrefs, id := e.id }) ∧
    (List.find? (fun x => jsToLower x.rpcUrl = jsToLower nc.rpcUrl)
        (regValues w.state.networkConfigurations) = none →
      List.any w.state.networkConfigurations (fun p => p.1 = freshId) = false →
      ¬freshId = "" →
      (upsertNetworkConfiguration w nc setActive referrer source freshId).error =
        none ∧
      (upsertNetworkConfiguration w nc setActive referrer source freshId).returnedId =
        some freshId ∧
      (upsertNetworkConfiguration w nc setActive referrer source
            freshId).trackedNewNetwork = true ∧
      (upsertNetworkConfiguration w nc setActive referrer source
            freshId).world.state.networkConfigurations =
        w.state.networkConfigurations ++
          [(freshId,
            { rpcUrl := nc.rpcUrl, chainId := nc.chainId, ticker := nc.ticker,
              nickname := nc.nickname, rpcPrefs := nc.rpcPrefs, id := freshId })]) := by
  unfold upsertNetworkConfiguration
  rw [if_neg (by simp [hHex]), if_neg (by simp [hSafe]), if_neg hUrl,
    if_neg (by simp [hRef, hSrc]), if_neg (by simp [hValid]), if_neg hTicker]
  dsimp only
  constructor
  · intro e hfind
    rw [hfind]
    dsimp only [Option.map]
    have hmem : e ∈ regValues w.state.networkConfigurations :=
      List.mem_of_find?_eq_some hfind
    rcases List.mem_map.mp hmem with ⟨p, hp, hpe⟩
    have hid : e.id = p.1 := by
      rw [← hpe]
      exact (hwf p hp).1
    have hne : ¬e.id = "" := by
      rw [hid]
      exact (hwf p hp).2
    rw [if_neg hne]
    have hany : List.any w.state.networkConfigurations (fun q => q.1 = e.id) = true := by
      refine List.any_eq_true.mpr ⟨p, hp, ?_⟩
      simp [hid]
    have hreg :
        regSet w.state.networkConfigurations e.id
            { rpcUrl := nc.rpcUrl, chainId := nc.chainId, ticker := nc.ticker,
              nickname := nc.nickname, rpcPrefs := nc.rpcPrefs, id := e.id } =
          List.map
            (fun q => if q.1 = e.id then
                (e.id,
                  { rpcUrl := nc.rpcUrl, chainId := nc.chainId, ticker := nc.ticker,
                    nickname := nc.nickname, rpcPrefs := nc.rpcPrefs, id := e.id })
              else q)
            w.state.networkConfigurations := by
      unfold regSet
      rw [if_pos hany]
    have hlen :
        (regSet w.state.networkConfigurations e.id
            { rpcUrl := nc.rpcUrl, chainId := nc.chainId, ticker := nc.ticker,
              nickname := nc.nickname, rpcPrefs := nc.rpcPrefs, id := e.id }).length =
          w.state.networkConfigurations.length := by
      rw [hreg, List.length_map]
    have hlook :=
      regLookup_regSet_self w.state.networkConfigurations e.id
        { rpcUrl := nc.rpcUrl, chainId := nc.chainId, ticker := nc.ticker,
          nickname := nc.nickname, rpcPrefs := nc.rpcPrefs, id := e.id }
    cases setActive with
    | false =>
      refine ⟨rfl, rfl, by simp [hne], hlen, hlook⟩
    | true =>
      rw [if_pos rfl]
      obtain ⟨hsnd, hregkeep⟩ :=
        setActiveNetwork_found_ok
          { w with
            state :=
              { w.state with
                networkConfigurations :=
                  regSet w.state.networkConfigurations e.id
                    { rpcUrl := nc.rpcUrl, chainId := nc.chainId, ticker := nc.ticker,
                      nickname := nc.nickname, rpcPrefs := nc.rpcPrefs, id := e.id } } }
          e.id
          { rpcUrl := nc.rpcUrl, chainId := nc.chainId, ticker := nc.ticker,
            nickname := nc.nickname, rpcPrefs := nc.rpcPrefs, id := e.id }
          hlook
      rw [show
            setActiveNetwork
                { w with
                  state :=
                    { w.state with
                      networkConfigurations :=
                        regSet w.state.networkConfigurations e.id
                          { rpcUrl := nc.rpcUrl, chainId := nc.chainId,
                            ticker := nc.ticker, nickname := nc.nickname,
                            rpcPrefs := nc.rpcPrefs, id := e.id } } }
                e.id =
              ((setActiveNetwork
                  { w with
                    state :=
                      { w.state with
                        networkConfigurations :=
                          regSet w.state.networkConfigurations e.id
                            { rpcUrl := nc.rpcUrl, chainId := nc.chainId,
                              ticker := nc.ticker, nickname := nc.nickname,
                              rpcPrefs := nc.rpcPrefs, id := e.id } } }
                  e.id).1,
                none)
          from by rw [← hsnd]]
      refine ⟨rfl, rfl, by simp [hne], ?_, ?_⟩
      · rw [hregkeep]
        exact hlen
      · rw [hregkeep]
        exact hlook
  · intro hfind hfresh hfne
    rw [hfind]
    dsimp only [Option.map]
    have hreg :
        regSet w.state.networkConfigurations freshId
            { rpcUrl := nc.rpcUrl, chainId := nc.chainId, ticker := nc.ticker,
              nickname := nc.nickname, rpcPrefs := nc.rpcPrefs, id := freshId } =
          w.state.networkConfigurations ++
            [(freshId,
              { rpcUrl := nc.rpcUrl, chainId := nc.chainId, ticker := nc.ticker,
                nickname := nc.nickname, rpcPrefs := nc.rpcPrefs, id := freshId })] := by
      unfold regSet
      rw [if_neg (by simp [hfresh])]
    have hlook :=
      regLookup_regSet_self w.state.networkConfigurations freshId
        { rpcUrl := nc.rpcUrl, chainId := nc.chainId, ticker := nc.ticker,
          nickname := nc.nickname, rpcPrefs := nc.rpcPrefs, id := freshId }
    cases setActive with
    | false =>
      refine ⟨rfl, rfl, rfl, hreg⟩
    | true =>
      rw [if_pos rfl]
      obtain ⟨hsnd, hregkeep⟩ :=
        setActiveNetwork_found_ok
          { w with
            state :=
              { w.state with
                networkConfigurations :=
                  regSet w.state.networkConfigurations freshId
                    { rpcUrl := nc.rpcUrl, chainId := nc.chainId, ticker := nc.ticker,
                      nickname := nc.nickname, rpcPrefs := nc.rpcPrefs,
                      id := freshId } } }
          freshId
          { rpcUrl := nc.rpcUrl, chainId := nc.chainId, ticker := nc.ticker,
            nickname := nc.nickname, rpcPrefs := nc.rpcPrefs, id := freshId }
          hlook
      rw [show
            setActiveNetwork
                { w with
                  state :=
                    { w.state with
                      networkConfigurations :=
                        regSet w.state.networkConfigurations freshId
                          { rpcUrl := nc.rpcUrl, chainId := nc.chainId,
                            ticker := nc.ticker, nickname := nc.nickname,
                            rpcPrefs := nc.rpcPrefs, id := freshId } } }
                freshId =
              ((setActiveNetwork
                  { w with
                    state :=
                      { w.state with
                        networkConfigurations :=
                          regSet w.state.networkConfigurations freshId
                            { rpcUrl := nc.rpcUrl, chainId := nc.chainId,
                              ticker := nc.ticker, nickname := nc.nickname,
                              rpcPrefs := nc.rpcPrefs, id := freshId } } }
                  freshId).1,
                none)
          from by rw [← hsnd]]
      refine ⟨rfl, rfl, rfl, ?_⟩
      rw [hregkeep]
      exact hreg

/-- C8 witness: upserting over `exampleRegistryWorld` (one entry with URL
`https://X.example`) a configuration with URL `https://x.example` —
differing only by case — updates entry `id1` in place: same id, registry
size 1, ticker replaced, no tracking event. -/
theorem upsertNetworkConfiguration_witness :
    List.find?
        (fun x => jsToLower x.rpcUrl = jsToLower "https://x.example")
        (regValues exampleRegistryWorld.state.networkConfigurations) =
      some exampleStored ∧
    (upsertNetworkConfiguration exampleRegistryWorld
        { rpcUrl := "https://x.example", chainId := "0x1", ticker := "NEW",
          nickname := none, rpcPrefs := none }
        false "referrer" "source" "fresh-id").returnedId = some "id1" ∧
    (upsertNetworkConfiguration exampleRegistryWorld
        { rpcUrl := "https://x.example", chainId := "0x1", ticker := "NEW",
          nickname := none, rpcPrefs := none }
        false "referrer" "source" "fresh-id").trackedNewNetwork = false :=
  ⟨by decide,
    ((upsertNetworkConfiguration_url_match_semantics exampleRegistryWorld
            { rpcUrl := "https://x.example", chainId := "0x1", ticker := "NEW",
              nickname := none, rpcPrefs := none }
            false "referrer" "source" "fresh-id" (by decide) (by decide)
            (by decide) (by decide) (by decide) (by decide) (by decide)
            (by decide)).1 exampleStored (by decide)).2.1,
    ((upsertNetworkConfiguration_url_match_semantics exampleRegistryWorld
            { rpcUrl := "https://x.example", chainId := "0x1", ticker := "NEW",
              nickname := none, rpcPrefs := none }
            false "referrer" "source" "fresh-id" (by decide) (by decide)
            (by decide) (by decide) (by decide) (by decide) (by decide)
            (by decide)).1 exampleStored (by decide)).2.2.1⟩

/-! Claim C1. -/

/-- C1: if a probe for network A is in flight (subscribed, not yet
stale) when a switch to network B completes (the switch publishes
`networkDidChange`, marking the probe stale, and spawns B's probe), then
A's resolution — whenever it arrives and whatever it computed — discards
all results: it changes nothing and publishes nothing; and in either
resolution order, the finally committed `networkStatus`, `networkId`,
and EIP-1559 capability each equal the outcome of network B's probe,
never the superseded probe's. -/
theorem stale_probe_discarded_and_switch_wins (w0 : World) (a : Nat)
    (pA : ProbeState) (cfgB : ProviderConfig) (client : NetworkClient)
    (fA fB : FetchOutcome)
    (ha : w0.probes[a]? = some pA) (hsub : pA.subscribed = true)
    (hok : configureProvider cfgB.type cfgB.rpcUrl (some cfgB.chainId) =
      Except.ok client) :
    probeResolve (switchCore w0 cfgB).1 a fA = ((switchCore w0 cfgB).1, []) ∧
    ∀ wF : World,
      (wF = (probeResolve (probeResolve (switchCore w0 cfgB).1 a fA).1
          w0.probes.length fB).1 ∨
       wF = (probeResolve
           (probeResolve (switchCore w0 cfgB).1 w0.probes.length fB).1 a fA).1) →
      wF.state.networkStatus =
        (lookupOutcome (isInfuraProviderType cfgB.type) fB).status ∧
      wF.state.networkId =
        (lookupOutcome (isInfuraProviderType cfgB.type) fB).networkId ∧
      lookupEIP wF.state.networkDetails.EIPS 1559 =
        (lookupOutcome (isInfuraProviderType cfgB.type) fB).eip1559 := by
  have halt : a < w0.probes.length := (List.getElem?_eq_some.mp ha).choose
  have hlenm : (markProbesChanged w0.probes).length = w0.probes.length := by
    unfold markProbesChanged
    exact List.length_map _ _
  have hW1 : (switchCore w0 cfgB).1 =
      { state :=
          { networkId := none
            networkStatus := NetworkStatus.unknown
            providerConfig := cfgB
            networkDetails := { EIPS := [] }
            networkConfigurations := w0.state.networkConfigurations }
        previousProviderConfig := w0.state.providerConfig
        ethQuery := true
        installedClient := some client
        probes :=
          markProbesChanged w0.probes ++
            [{ subscribed := true, changed := false,
               isInfura := isInfuraProviderType cfgB.type }] } := by
    unfold switchCore refreshSync
    dsimp only [resetNetworkState]
    rw [hok]
    dsimp only [startProbe]
    rfl
  have hgetA :
      (markProbesChanged w0.probes ++
          [{ subscribed := true, changed := false,
             isInfura := isInfuraProviderType cfgB.type }])[a]? =
        some { subscribed := false, changed := true, isInfura := pA.isInfura } := by
    rw [List.getElem?_append_left (by rw [hlenm]; exact halt)]
    unfold markProbesChanged
    rw [List.getElem?_map, ha]
    dsimp only [Option.map]
    rw [if_pos hsub]
  have hgetB :
      (markProbesChanged w0.probes ++
          [{ subscribed := true, changed := false,
             isInfura := isInfuraProviderType cfgB.type }])[w0.probes.length]? =
        some { subscribed := true, changed := false,
               isInfura := isInfuraProviderType cfgB.type } := by
    rw [← hlenm]
    exact List.getElem?_concat_length _ _
  have hpart1 :
      probeResolve (switchCore w0 cfgB).1 a fA = ((switchCore w0 cfgB).1, []) := by
    rw [hW1]
    unfold probeResolve
    dsimp only
    rw [hgetA]
    rfl
  have h2 : probeResolve (switchCore w0 cfgB).1 w0.probes.length fB =
      ({ state :=
           commitLookup
             { networkId := none
               networkStatus := NetworkStatus.unknown
               providerConfig := cfgB
               networkDetails := { EIPS := [] }
               networkConfigurations := w0.state.networkConfigurations }
             (lookupOutcome (isInfuraProviderType cfgB.type) fB)
         previousProviderConfig := w0.state.providerConfig
         ethQuery := true
         installedClient := some client
         probes :=
           List.set
             (markProbesChanged w0.probes ++
               [{ subscribed := true, changed := false,
                  isInfura := isInfuraProviderType cfgB.type }])
             w0.probes.length
             { subscribed := false, changed := false,
               isInfura := isInfuraProviderType cfgB.type } },
       lookupEvents (isInfuraProviderType cfgB.type)
         (lookupOutcome (isInfuraProviderType cfgB.type) fB).status) := by
    rw [hW1]
    unfold probeResolve
    dsimp only
    rw [hgetB]
    rfl
  refine ⟨hpart1, ?_⟩
  intro wF hwF
  rcases hwF with h | h
  · subst h
    rw [congrArg Prod.fst hpart1]
    rw [h2]
    exact ⟨rfl, rfl, lookupEIP_commit_of_empty _ _ rfl⟩
  · subst h
    rw [h2]
    have hsetne :
        (List.set
            (markProbesChanged w0.probes ++
              [{ subscribed := true, changed := false,
                 isInfura := isInfuraProviderType cfgB.type }])
            w0.probes.length
            { subscribed := false, changed := false,
              isInfura := isInfuraProviderType cfgB.type })[a]? =
          (markProbesChanged w0.probes ++
              [{ subscribed := true, changed := false,
                 isInfura := isInfuraProviderType cfgB.type }])[a]? :=
      List.getElem?_set_ne (Ne.symm (Nat.ne_of_lt halt))
    unfold probeResolve
    dsimp only
    rw [hsetne, hgetA]
    exact ⟨rfl, rfl, lookupEIP_commit_of_empty _ _ rfl⟩

/-- C1 witness: with a mainnet probe in flight, switching to the custom
network B (`customBConfig`) and resolving A's probe (successful fetch)
and then B's probe (limit-exceeded failure): A's resolution is a no-op
and the final committed status is B's outcome, `unavailable`. -/
theorem stale_probe_witness :
    exampleProbeWorld.probes[0]? =
      some { subscribed := true, changed := false, isInfura := true } ∧
    probeResolve (switchCore exampleProbeWorld customBConfig).1 0 successFetch =
      ((switchCore exampleProbeWorld customBConfig).1, []) ∧
    ((probeResolve
          (probeResolve (switchCore exampleProbeWorld customBConfig).1 0
            successFetch).1
          exampleProbeWorld.probes.length limitExceededFetch).1).state.networkStatus =
      NetworkStatus.unavailable :=
  ⟨by decide,
    (stale_probe_discarded_and_switch_wins exampleProbeWorld 0
        { subscribed := true, changed := false, isInfura := true } customBConfig
        (NetworkClient.custom "https://network-b.example" "0x539") successFetch
        limitExceededFetch (by decide) rfl rfl).1,
    (((stale_probe_discarded_and_switch_wins exampleProbeWorld 0
            { subscribed := true, changed := false, isInfura := true } customBConfig
            (NetworkClient.custom "https://network-b.example" "0x539") successFetch
            limitExceededFetch (by decide) rfl rfl).2 _ (Or.inl rfl)).1).trans
      (by decide)⟩

end NetCtrl
